import Mathlib

/-!
Shallow embedding of `src/multi_tool_agent/agent.py` (repository
Fl3xxRichie/cityagent) and proofs about the claims of its specification.

Modelling conventions, used throughout:

* Python dictionaries that are returned as results are embedded as Lean
  structures whose fields mirror the dictionary keys; a key that is present
  only in the success (resp. error) shape of the dictionary becomes an
  `Option` field.
* Python string presentation details that no claim touches are abstracted:
  emoji glyphs, number formatting (`:.1f`, `:,`, `round`) and quote characters
  inside messages are dropped or replaced by plain concatenation of
  `toString`.  The data that flows into the strings is kept.
* Python floats are embedded as exact numbers: the literals of the source are
  rationals (`ℚ`) and the transcendental distance computation is carried out
  over the reals (`ℝ`).  IEEE-754 rounding is NOT modelled; where that matters
  for a claim it is discussed at the claim.
* `zoneinfo.ZoneInfo` together with `datetime.datetime.now` is modelled by an
  explicit parameter `tzdb : String → Option ZoneNow`: the runtime timezone
  database viewed at one fixed instant.  `none` models
  `ZoneInfoNotFoundError` being raised by the `ZoneInfo` constructor.
* A Python function that can terminate with an uncaught exception is embedded
  with codomain `PyOutcome α`; `PyOutcome.raised e` models the uncaught
  exception `e`, every ordinary `return` is `PyOutcome.ret`.
-/

namespace CityAgent

/-- Python `pat in s` (substring containment) on explicit character lists. -/
def charsStartWith : List Char → List Char → Bool
  | [], _ => true
  | _ :: _, [] => false
  | a :: as, b :: bs => a == b && charsStartWith as bs

/-- Helper for `strContains`: does `pat` occur in `s` as a contiguous run? -/
def charsContains (s pat : List Char) : Bool :=
  charsStartWith pat s ||
    (match s with
     | [] => false
     | _ :: t => charsContains t pat)

/-- Python `pat in s` for strings (case-sensitive substring test). -/
def strContains (s pat : String) : Bool :=
  charsContains s.data pat.data

/-- Python `str.title()` restricted to ASCII, as used on city names and keys:
the first letter of every run of letters is upper-cased, the other letters are
lower-cased. -/
def titleChars : List Char → Bool → List Char
  | [], _ => []
  | c :: cs, prevAlpha =>
    (if c.isAlpha then (if prevAlpha then c.toLower else c.toUpper) else c) ::
      titleChars cs c.isAlpha

/-- Python `str.title()` (ASCII fragment). -/
def pyTitle (s : String) : String :=
  ⟨titleChars s.data false⟩

/-- Python `str.lower()` (ASCII fragment), character by character, so that
concrete applications reduce definitionally. -/
def pyLower (s : String) : String :=
  ⟨s.data.map Char.toLower⟩

/-- Python `str.strip()`: leading and trailing whitespace removed. -/
def pyStrip (s : String) : String :=
  ⟨((s.data.dropWhile Char.isWhitespace).reverse.dropWhile
      Char.isWhitespace).reverse⟩

/-- Python `s.lower().strip()`, the normalisation applied to every city-name
argument before it is compared with the stored keys. -/
def pyNorm (s : String) : String :=
  pyStrip (pyLower s)

/-- `CityInfo` dataclass of `agent.py` (lines 21-29).  The coordinate tuple is
split into `latDeg`/`lonDeg`; the source's float literals are exact decimal
numbers, kept as rationals. -/
structure CityInfo where
  name : String
  country : String
  timezone : String
  population : Nat
  latDeg : ℚ
  lonDeg : ℚ
  currency : String
  language : String
deriving DecidableEq

/-- The `"new york"` record of `CITY_DATABASE`. -/
def newYorkCity : CityInfo :=
  { name := "New York", country := "United States", timezone := "America/New_York"
    population := 8336817, latDeg := 40.7128, lonDeg := -74.0060
    currency := "USD", language := "English" }

/-- The `"london"` record of `CITY_DATABASE`. -/
def londonCity : CityInfo :=
  { name := "London", country := "United Kingdom", timezone := "Europe/London"
    population := 9648110, latDeg := 51.5074, lonDeg := -0.1278
    currency := "GBP", language := "English" }

/-- The `"tokyo"` record of `CITY_DATABASE`. -/
def tokyoCity : CityInfo :=
  { name := "Tokyo", country := "Japan", timezone := "Asia/Tokyo"
    population := 13960000, latDeg := 35.6762, lonDeg := 139.6503
    currency := "JPY", language := "Japanese" }

/-- The `"lagos"` record of `CITY_DATABASE`. -/
def lagosCity : CityInfo :=
  { name := "Lagos", country := "Nigeria", timezone := "Africa/Lagos"
    population := 15388000, latDeg := 6.5244, lonDeg := 3.3792
    currency := "NGN", language := "English" }

/-- The `"paris"` record of `CITY_DATABASE`. -/
def parisCity : CityInfo :=
  { name := "Paris", country := "France", timezone := "Europe/Paris"
    population := 2165423, latDeg := 48.8566, lonDeg := 2.3522
    currency := "EUR", language := "French" }

/-- The `"dubai"` record of `CITY_DATABASE`. -/
def dubaiCity : CityInfo :=
  { name := "Dubai", country := "UAE", timezone := "Asia/Dubai"
    population := 3331420, latDeg := 25.2048, lonDeg := 55.2708
    currency := "AED", language := "Arabic" }

/-- The `"sydney"` record of `CITY_DATABASE`. -/
def sydneyCity : CityInfo :=
  { name := "Sydney", country := "Australia", timezone := "Australia/Sydney"
    population := 5312163, latDeg := -33.8688, lonDeg := 151.2093
    currency := "AUD", language := "English" }

/-- The `"mumbai"` record of `CITY_DATABASE`. -/
def mumbaiCity : CityInfo :=
  { name := "Mumbai", country := "India", timezone := "Asia/Kolkata"
    population := 20411274, latDeg := 19.0760, lonDeg := 72.8777
    currency := "INR", language := "Hindi/English" }

/-- `CITY_DATABASE` (agent.py lines 32-73) as an insertion-ordered association
list, matching the iteration order of the Python dict. -/
def CITY_DATABASE : List (String × CityInfo) :=
  [("new york", newYorkCity), ("london", londonCity), ("tokyo", tokyoCity),
   ("lagos", lagosCity), ("paris", parisCity), ("dubai", dubaiCity),
   ("sydney", sydneyCity), ("mumbai", mumbaiCity)]

/-- Python `key in CITY_DATABASE` / `CITY_DATABASE[key]` combined: the first
record stored under `key`, if any. -/
def dbFind (key : String) : Option CityInfo :=
  (CITY_DATABASE.find? (fun p => p.1 == key)).map (fun p => p.2)

/-- One alert dictionary of the weather table. -/
structure WeatherAlert where
  alertType : String
  severity : String
  description : String
  expires : String
deriving DecidableEq

/-- One value dictionary of `WEATHER_DATA` (agent.py lines 76-112).
`pressure` is a decimal literal in the source, kept as a rational. -/
structure WeatherEntry where
  condition : String
  temperature_c : Int
  temperature_f : Int
  humidity : Int
  wind_speed : Int
  wind_direction : String
  pressure : ℚ
  visibility : Int
  uv_index : Int
  air_quality : String
  feels_like_c : Int
  feels_like_f : Int
  alerts : List WeatherAlert
deriving DecidableEq

/-- `WEATHER_DATA` as an insertion-ordered association list. -/
def WEATHER_DATA : List (String × WeatherEntry) :=
  [("new york",
    { condition := "sunny", temperature_c := 25, temperature_f := 77
      humidity := 60, wind_speed := 15, wind_direction := "SW"
      pressure := 1013.2, visibility := 10, uv_index := 6
      air_quality := "Good", feels_like_c := 27, feels_like_f := 81
      alerts := [] }),
   ("london",
    { condition := "cloudy", temperature_c := 18, temperature_f := 64
      humidity := 75, wind_speed := 10, wind_direction := "W"
      pressure := 1008.5, visibility := 8, uv_index := 3
      air_quality := "Moderate", feels_like_c := 16, feels_like_f := 61
      alerts := [] }),
   ("tokyo",
    { condition := "partly cloudy", temperature_c := 28, temperature_f := 82
      humidity := 65, wind_speed := 8, wind_direction := "E"
      pressure := 1015.1, visibility := 12, uv_index := 7
      air_quality := "Good", feels_like_c := 31, feels_like_f := 88
      alerts := [] }),
   ("lagos",
    { condition := "thunderstorms", temperature_c := 26, temperature_f := 79
      humidity := 94, wind_speed := 5, wind_direction := "W"
      pressure := 1009.8, visibility := 5, uv_index := 4
      air_quality := "Moderate", feels_like_c := 28, feels_like_f := 83
      alerts := [{ alertType := "Thunderstorm", severity := "moderate"
                   description := "Scattered thunderstorms expected"
                   expires := "2025-06-03T20:00:00" }] }),
   ("paris",
    { condition := "rainy", temperature_c := 16, temperature_f := 61
      humidity := 80, wind_speed := 20, wind_direction := "NW"
      pressure := 1005.2, visibility := 6, uv_index := 2
      air_quality := "Good", feels_like_c := 14, feels_like_f := 57
      alerts := [] })]

/-- Python `key in WEATHER_DATA` / `WEATHER_DATA[key]` combined. -/
def wdFind (key : String) : Option WeatherEntry :=
  (WEATHER_DATA.find? (fun p => p.1 == key)).map (fun p => p.2)

/-- The `", ".join(city.title() for city in D.keys())` strings used in the
not-available error messages. -/
def availableCityNames : String :=
  String.intercalate ", " (CITY_DATABASE.map (fun p => pyTitle p.1))

/-- Same for the weather table. -/
def availableWeatherNames : String :=
  String.intercalate ", " (WEATHER_DATA.map (fun p => pyTitle p.1))

/-- Result dictionary of `get_weather`.  `raw_data` mirrors the
`weather if detailed else None` value. -/
structure WeatherResult where
  status : String
  report : Option String
  raw_data : Option WeatherEntry
  error_message : Option String
deriving DecidableEq

/-- One bullet line of the alerts section of the weather report. -/
def alertLine (a : WeatherAlert) : String :=
  "- " ++ a.alertType ++ " (" ++ a.severity ++ "): " ++ a.description

/-- `get_weather` (agent.py lines 114-162).  The report text keeps the data
of the f-strings but drops emoji and quote presentation. -/
def getWeather (city : String) (detailed : Bool) : WeatherResult :=
  match wdFind (pyNorm city) with
  | some weather =>
    let base :=
      "Weather in " ++ pyTitle city ++ ": " ++ pyTitle weather.condition ++
      " / Temperature: " ++ toString weather.temperature_c ++ "C (" ++
      toString weather.temperature_f ++ "F)" ++
      " / Feels like: " ++ toString weather.feels_like_c ++ "C (" ++
      toString weather.feels_like_f ++ "F)" ++
      " / Humidity: " ++ toString weather.humidity ++ "%" ++
      " / Wind: " ++ toString weather.wind_speed ++ " km/h " ++
      weather.wind_direction
    let withDetail :=
      if detailed then
        base ++ " / Pressure: " ++ toString weather.pressure ++ " hPa" ++
        " / Visibility: " ++ toString weather.visibility ++ " km" ++
        " / UV Index: " ++ toString weather.uv_index ++
        " / Air Quality: " ++ weather.air_quality
      else base
    let withAlerts :=
      if weather.alerts.isEmpty then withDetail
      else withDetail ++ " / Weather Alerts: " ++
        String.intercalate " " (weather.alerts.map alertLine)
    { status := "success", report := some withAlerts
      raw_data := if detailed then some weather else none
      error_message := none }
  | none =>
    { status := "error", report := none, raw_data := none
      error_message := some ("Weather data for " ++ city ++
        " not available. Try: " ++ availableWeatherNames ++
        ". Or I can search the web for it.") }

/-- Result dictionary of `get_city_info`. -/
structure CityResult where
  status : String
  report : Option String
  city_data : Option CityInfo
  error_message : Option String
deriving DecidableEq

/-- `get_city_info` (agent.py lines 210-243).  Numeric presentation
(`:,` and `:.4f`) is abstracted by `toString`. -/
def getCityInfo (city : String) : CityResult :=
  match dbFind (pyNorm city) with
  | none =>
    { status := "error", report := none, city_data := none
      error_message := some ("City information for " ++ city ++
        " not available. Try: " ++ availableCityNames ++
        ". Or I can search the web for it.") }
  | some city_info =>
    { status := "success"
      report := some (city_info.name ++ ", " ++ city_info.country ++
        " / Population: " ++ toString city_info.population ++
        " / Coordinates: " ++ toString city_info.latDeg ++ ", " ++
        toString city_info.lonDeg ++
        " / Currency: " ++ city_info.currency ++
        " / Language: " ++ city_info.language ++
        " / Timezone: " ++ city_info.timezone)
      city_data := some city_info
      error_message := none }

/-- One element of the `matches` list built by `search_cities_in_database`. -/
structure SearchMatch where
  name : String
  country : String
  population : Nat
deriving DecidableEq

/-- The `matches` list of `search_cities_in_database` (agent.py lines
388-399): every catalog entry whose lowered display name, lowered country, or
key contains the normalised query as a substring, in catalog order. -/
def searchMatches (query : String) : List SearchMatch :=
  let query_lower := pyNorm query
  CITY_DATABASE.filterMap (fun p =>
    if strContains (pyLower p.2.name) query_lower ||
       strContains (pyLower p.2.country) query_lower ||
       strContains p.1 query_lower then
      some { name := p.2.name, country := p.2.country,
             population := p.2.population }
    else none)

/-- Result dictionary of `search_cities_in_database`. -/
structure SearchResult where
  status : String
  report : Option String
  matchesList : Option (List SearchMatch)  -- dict key "matches"
  count : Option Nat
  error_message : Option String
deriving DecidableEq

/-- One bullet line of the search report. -/
def matchLine (m : SearchMatch) : String :=
  "- " ++ m.name ++ ", " ++ m.country ++ " (Pop: " ++
    toString m.population ++ ")"

/-- `search_cities_in_database` (agent.py lines 379-416): a non-empty match
list yields a success dictionary carrying the matches; an empty match list
yields an error dictionary (`status = "error"`) with a message that offers a
web search instead. -/
def searchCities (query : String) : SearchResult :=
  if (searchMatches query).isEmpty then
    { status := "error", report := none, matchesList := none, count := none
      error_message := some ("No cities found in my database matching " ++
        query ++ ". I can perform a web search if you would like.") }
  else
    { status := "success"
      report := some ("Found " ++ toString (searchMatches query).length ++
        " cities in my database matching " ++ query ++ ": " ++
        String.intercalate " " ((searchMatches query).map matchLine))
      matchesList := some (searchMatches query)
      count := some (searchMatches query).length, error_message := none }

/-- The view of one resolved timezone at the (single, fixed) instant at which
the embedded program runs: the UTC offset in seconds
(`datetime.now(tz).utcoffset().total_seconds()`) and the strings produced by
the four `strftime`/`isoformat` presentations of `datetime.now(tz)` together
with the `%z` offset string.  A timezone identifier that `zoneinfo` does not
recognise is mapped to `none` by the ambient `tzdb` parameter. -/
structure ZoneNow where
  offsetSeconds : ℚ
  standardS : String
  businessS : String
  isoS : String
  relativeS : String
  offsetS : String
deriving DecidableEq

/-- The `formats` dictionary of `get_current_time` (agent.py lines 188-195)
together with the `formats.get(format_type, formats["standard"])` lookup:
an unrecognised `format_type` falls back to the `"standard"` entry. -/
def formatsLookup (now : ZoneNow) (format_type : String) : String :=
  if format_type == "standard" then now.standardS
  else if format_type == "business" then now.businessS
  else if format_type == "iso" then now.isoS
  else if format_type == "relative" then now.relativeS
  else now.standardS

/-- Result dictionary of `get_current_time`. -/
structure TimeResult where
  status : String
  report : Option String
  timestamp : Option String
  timezone : Option String
  utc_offset : Option String
  error_message : Option String
deriving DecidableEq

/-- `get_current_time` (agent.py lines 164-208).  `tzdb` models the runtime
timezone database at the current instant; `tzdb t = none` models the
`ZoneInfo` constructor raising, which the source catches with
`except Exception` and turns into an error dictionary. -/
def getCurrentTime (tzdb : String → Option ZoneNow) (city : String)
    (format_type : String) : TimeResult :=
  match dbFind (pyNorm city) with
  | none =>
    { status := "error", report := none, timestamp := none, timezone := none
      utc_offset := none
      error_message := some ("Time zone data for " ++ city ++
        " not available. Try: " ++ availableCityNames ++
        ". Or I can search the web for it.") }
  | some city_info =>
    match tzdb city_info.timezone with
    | none =>
      { status := "error", report := none, timestamp := none, timezone := none
        utc_offset := none
        error_message := some ("Error getting time for " ++ city) }
    | some now =>
      { status := "success"
        report := some ("Current time in " ++ pyTitle city ++ ": " ++
          formatsLookup now format_type)
        timestamp := some now.isoS
        timezone := some city_info.timezone
        utc_offset := some now.offsetS
        error_message := none }

/-- Codomain wrapper distinguishing an ordinary `return`ed value from an
uncaught exception escaping the function. -/
inductive PyOutcome (α : Type) where
  | ret (a : α)
  | raised (exn : String)
deriving DecidableEq

/-- Result dictionary of `compare_cities` (either shape). -/
structure CompareResult where
  status : String
  report : Option String
  error_message : Option String
deriving DecidableEq

/-- `compare_cities` (agent.py lines 245-332).  The guards re-normalise the
inputs with `.lower().strip()`, but the direct table indexings
`WEATHER_DATA[city1.lower()]` (line 270-271) and
`CITY_DATABASE[city1.lower()]` (line 304-305) apply `.lower()` only; an
absent key there is an uncaught `KeyError`, modelled by `.raised`. -/
def compareCities (tzdb : String → Option ZoneNow)
    (city1 city2 : String) (comparison_type : String) :
    PyOutcome CompareResult :=
  if comparison_type == "weather" then
    let weather1 := getWeather city1 false
    let weather2 := getWeather city2 false
    if weather1.status == "error" || weather2.status == "error" then
      if (wdFind (pyNorm city1)).isNone || (wdFind (pyNorm city2)).isNone then
        .ret { status := "error", report := none
               error_message := some ("Weather data missing for one or both" ++
                 " cities. I can try a web search for current weather if" ++
                 " you would like.") }
      else
        .ret { status := "error", report := none
               error_message := some
                 "Cannot compare - one or both cities have no weather data" }
    else
      match wdFind (pyLower city1) with
      | none => .raised ("KeyError: " ++ pyLower city1)
      | some w1 =>
        match wdFind (pyLower city2) with
        | none => .raised ("KeyError: " ++ pyLower city2)
        | some w2 =>
          let temp_diff := w1.temperature_c - w2.temperature_c
          let humidity_diff := w1.humidity - w2.humidity
          .ret { status := "success"
                 report := some ("Weather Comparison: " ++ pyTitle city1 ++
                   " vs " ++ pyTitle city2 ++
                   " / " ++ pyTitle city1 ++ ": " ++
                   toString w1.temperature_c ++ "C, " ++ w1.condition ++
                   " / " ++ pyTitle city2 ++ ": " ++
                   toString w2.temperature_c ++ "C, " ++ w2.condition ++
                   " / Temperature difference: " ++
                   toString (Int.natAbs temp_diff) ++ "C (" ++
                   (if temp_diff > 0 then "warmer" else "cooler") ++ " in " ++
                   (if temp_diff > 0 then pyTitle city1 else pyTitle city2) ++
                   ") / Humidity difference: " ++
                   toString (Int.natAbs humidity_diff) ++ "% (" ++
                   (if humidity_diff > 0 then "higher" else "lower") ++
                   " in " ++
                   (if humidity_diff > 0 then pyTitle city1
                    else pyTitle city2) ++ ")")
                 error_message := none }
  else if comparison_type == "time" then
    let time1 := getCurrentTime tzdb city1 "standard"
    let time2 := getCurrentTime tzdb city2 "standard"
    if time1.status == "error" || time2.status == "error" then
      if (dbFind (pyNorm city1)).isNone || (dbFind (pyNorm city2)).isNone then
        .ret { status := "error", report := none
               error_message := some ("Timezone data unavailable for one or" ++
                 " both cities in my database. I can search the web for" ++
                 " current times.") }
      else
        .ret { status := "error", report := none
               error_message := some ("Cannot compare - timezone data" ++
                 " unavailable for one or both cities") }
    else
      match dbFind (pyLower city1) with
      | none => .raised ("KeyError: " ++ pyLower city1)
      | some info1 =>
        match dbFind (pyLower city2) with
        | none => .raised ("KeyError: " ++ pyLower city2)
        | some info2 =>
          match tzdb info1.timezone, tzdb info2.timezone with
          | some now1, some now2 =>
            let diff : ℚ := (now1.offsetSeconds - now2.offsetSeconds) / 3600
            .ret { status := "success"
                   report := some ("Time Comparison: " ++ pyTitle city1 ++
                     " vs " ++ pyTitle city2 ++
                     " / Time difference: " ++ toString |diff| ++ " hours (" ++
                     (if diff > 0 then pyTitle city1 else pyTitle city2) ++
                     " is ahead)")
                   error_message := none }
          | _, _ => .raised "ZoneInfoNotFoundError"
  else
    let info1 := getCityInfo city1
    let info2 := getCityInfo city2
    if info1.status == "error" || info2.status == "error" then
      .ret { status := "error", report := none
             error_message := some ("City info missing for comparison. I can" ++
               " try searching the web for " ++ city1 ++ " or " ++ city2 ++
               " if they are not in my database.") }
    else
      .ret { status := "error", report := none
             error_message := some ("Invalid comparison type or not fully" ++
               " implemented for info. Use weather or time, or I can search" ++
               " for general info on both.") }

/-- `math.radians` applied to a degree literal of the catalog. -/
noncomputable def rad (d : ℚ) : ℝ :=
  (d : ℝ) * Real.pi / 180

/-- The haversine intermediate `a` of `get_travel_info` (agent.py lines
446-448), written exactly as the source computes it — in particular WITHOUT
any clamping to `[0, 1]`:
`a = sin(dlat/2)**2 + cos(lat1)*cos(lat2)*sin(dlon/2)**2`. -/
noncomputable def havRaw (lat1 lon1 lat2 lon2 : ℚ) : ℝ :=
  Real.sin ((rad lat2 - rad lat1) / 2) ^ 2 +
    Real.cos (rad lat1) * Real.cos (rad lat2) *
      Real.sin ((rad lon2 - rad lon1) / 2) ^ 2

/-- The clamp of the spec's numeric contract, modelled from the spec's words
("`h` must be clamped to `[0, 1]` before the square root").  It is NOT part
of the source; it exists to be compared with `havRaw`. -/
noncomputable def clamp01 (x : ℝ) : ℝ :=
  min 1 (max 0 x)

/-- `distance_km` of `get_travel_info` (agent.py lines 442-450):
`c = 2 * asin(sqrt(a))`, `distance_km = 6371 * c`.  `math.asin` is modelled
by `Real.arcsin`; on arguments inside `[-1, 1]` the two agree, and every
argument that actually occurs is `Real.sqrt` of a value shown to lie in
`[0, 1]`. -/
noncomputable def travelDistanceKm (o d : CityInfo) : ℝ :=
  6371 * (2 * Real.arcsin (Real.sqrt
    (havRaw o.latDeg o.lonDeg d.latDeg d.lonDeg)))

/-- The miles figure of the travel report (agent.py line 462):
`distance_km * 0.621371`. -/
noncomputable def travelDistanceMiles (o d : CityInfo) : ℝ :=
  travelDistanceKm o d * 0.621371

/-- Success dictionary of `get_travel_info` together with the data items
interpolated into its report string (`report_km`, `report_miles`,
`ahead_word`, the currency and language pairs).  `distance_km_field` is the
`round(distance_km)` dict entry; Lean's `round` (half away from zero upward)
stands in for Python's round-half-to-even, which differs only at exact
half-integers. -/
structure TravelOk where
  report_km : ℝ
  report_miles : ℝ
  ahead_word : String
  currency_from : String
  currency_to : String
  language_from : String
  language_to : String
  distance_km_field : ℤ
  time_difference_hours : ℚ

/-- Full outcome of `get_travel_info`: a success dictionary, the error
dictionary for cities missing from the catalog, or an uncaught exception. -/
inductive TravelOutcome where
  | success (r : TravelOk)
  | errorResult (msg : String)
  | raised (exn : String)

/-- The `time_diff` of `get_travel_info` (agent.py line 458):
`(now_dest.utcoffset() - now_origin.utcoffset()).total_seconds() / 3600`. -/
def timeDiffHours (now_origin now_dest : ZoneNow) : ℚ :=
  (now_dest.offsetSeconds - now_origin.offsetSeconds) / 3600

/-- `get_travel_info` (agent.py lines 418-474).  Note the contrast with
`get_current_time`: the two `ZoneInfo` constructions on lines 453-454 are NOT
inside any `try`, so an unrecognised `timezone` identifier raises
`ZoneInfoNotFoundError` out of the function, modelled by `.raised`. -/
noncomputable def getTravelInfo (tzdb : String → Option ZoneNow)
    (origin destination : String) : TravelOutcome :=
  match dbFind (pyNorm origin), dbFind (pyNorm destination) with
  | some origin_info, some dest_info =>
    match tzdb origin_info.timezone with
    | none => .raised "ZoneInfoNotFoundError"
    | some now_origin =>
      match tzdb dest_info.timezone with
      | none => .raised "ZoneInfoNotFoundError"
      | some now_dest =>
        .success
          { report_km := travelDistanceKm origin_info dest_info
            report_miles := travelDistanceMiles origin_info dest_info
            ahead_word :=
              if timeDiffHours now_origin now_dest > 0 then "ahead"
              else "behind"
            currency_from := origin_info.currency
            currency_to := dest_info.currency
            language_from := origin_info.language
            language_to := dest_info.language
            distance_km_field := round (travelDistanceKm origin_info dest_info)
            time_difference_hours := timeDiffHours now_origin now_dest }
  | _, _ =>
    .errorResult ("Travel info requires both cities to be in our database." ++
      " I can try a web search for information about these cities.")

/-- The spec's own description of the distance computation, written from the
words of spec section 4.2 (degrees to radians, `dlat`/`dlon` differences,
`h = sin²(dlat/2) + cos(lat1)·cos(lat2)·sin²(dlon/2)`, `c = 2·asin(√h)`,
`distance = 6371 × c`), to be compared with the source's `travelDistanceKm`. -/
noncomputable def specGreatCircleKm (a b : CityInfo) : ℝ :=
  6371 * (2 * Real.arcsin (Real.sqrt
    (Real.sin ((rad b.latDeg - rad a.latDeg) / 2) ^ 2 +
      Real.cos (rad a.latDeg) * Real.cos (rad b.latDeg) *
        Real.sin ((rad b.lonDeg - rad a.lonDeg) / 2) ^ 2)))

/-- A runtime timezone database that recognises no identifier at all: every
`ZoneInfo` construction raises.  Used to exercise the unknown-timezone
behaviour of the operations. -/
def tzdbMissing : String → Option ZoneNow := fun _ => none

/-- A concrete two-zone timezone database for witnesses: Europe/London at
UTC+0 and Asia/Tokyo at UTC+9 (offsets in seconds). -/
def tzdbLondonTokyo : String → Option ZoneNow := fun s =>
  if s == "Europe/London" then
    some { offsetSeconds := 0, standardS := "", businessS := "", isoS := ""
           relativeS := "", offsetS := "" }
  else if s == "Asia/Tokyo" then
    some { offsetSeconds := 32400, standardS := "", businessS := "", isoS := ""
           relativeS := "", offsetS := "" }
  else none

/-- Claim C2 is refuted at a concrete input: for the query
`"zzzznotacity"`, which matches no record, `search_cities_in_database` does
NOT return an empty sequence as a success outcome — it returns an error
dictionary (`status = "error"`) carrying no matches list at all. -/
theorem c2_search_empty_counterexample :
    (searchCities "zzzznotacity").status = "error" ∧
    (searchCities "zzzznotacity").matchesList = none := by
  exact ⟨rfl, rfl⟩

/-- Claim C2 as amended: for every query string whose match list over the
catalog is empty, `search_cities_in_database` returns the error-status
dictionary (with an error message offering a web search) and carries neither
a matches list nor a count — an empty result is reported as an error, not as
an empty success sequence. -/
theorem c2_search_no_match_is_error (query : String)
    (h : searchMatches query = []) :
    (searchCities query).status = "error" ∧
    (searchCities query).matchesList = none ∧
    (searchCities query).count = none ∧
    (searchCities query).error_message =
      some ("No cities found in my database matching " ++ query ++
        ". I can perform a web search if you would like.") := by
  unfold searchCities
  rw [h]
  exact ⟨rfl, rfl, rfl, rfl⟩

/-- Witness for C2's amended theorem at the concrete query
`"zzzznotacity"`. -/
theorem c2_search_no_match_is_error_witness :
    (searchCities "zzzznotacity").matchesList = none ∧
    (searchCities "zzzznotacity").count = none ∧
    (searchCities "zzzznotacity").error_message =
      some ("No cities found in my database matching zzzznotacity" ++
        ". I can perform a web search if you would like.") := by
  obtain ⟨-, h2, h3, h4⟩ :=
    c2_search_no_match_is_error "zzzznotacity" (by decide)
  exact ⟨h2, h3, h4⟩

/-- Claim C3: the code is at fault.  With a timezone database that does not
recognise the catalog's identifiers, `get_current_time` returns an explicit
error dictionary (its body is wrapped in `try`/`except`), but
`get_travel_info` terminates with an uncaught `ZoneInfoNotFoundError` — its
`ZoneInfo` constructions have no handler — contradicting the claim that every
failure of the core is returned as an explicit result value. -/
theorem c3_travel_info_raises_uncaught :
    getTravelInfo tzdbMissing "london" "paris" =
      TravelOutcome.raised "ZoneInfoNotFoundError" ∧
    (getCurrentTime tzdbMissing "london" "standard").status = "error" ∧
    (getCurrentTime tzdbMissing "london" "standard").error_message =
      some "Error getting time for london" := by
  exact ⟨rfl, rfl, rfl⟩

/-- Claim C6: in `get_travel_info`, whenever both records' timezones resolve,
the returned `time_difference_hours` equals the destination's UTC offset
minus the origin's, in hours, and the report says the destination is "ahead"
exactly when that difference is strictly positive. -/
theorem c6_time_offset_difference (tzdb : String → Option ZoneNow)
    (origin destination : String) (oi di : CityInfo) (zo zd : ZoneNow)
    (ho : dbFind (pyNorm origin) = some oi)
    (hd : dbFind (pyNorm destination) = some di)
    (hzo : tzdb oi.timezone = some zo)
    (hzd : tzdb di.timezone = some zd) :
    ∃ r : TravelOk,
      getTravelInfo tzdb origin destination = TravelOutcome.success r ∧
      r.time_difference_hours =
        zd.offsetSeconds / 3600 - zo.offsetSeconds / 3600 ∧
      (r.ahead_word = "ahead" ↔ 0 < r.time_difference_hours) := by
  unfold getTravelInfo
  rw [ho, hd]
  dsimp only
  rw [hzo, hzd]
  refine ⟨_, rfl, ?_, ?_⟩
  · show timeDiffHours zo zd =
      zd.offsetSeconds / 3600 - zo.offsetSeconds / 3600
    unfold timeDiffHours
    ring
  · show (if timeDiffHours zo zd > 0 then "ahead" else "behind") = "ahead" ↔
      0 < timeDiffHours zo zd
    by_cases hpos : 0 < timeDiffHours zo zd
    · simp [hpos]
    · simp [hpos]

/-- Witness for C6 at the concrete database `tzdbLondonTokyo`, origin London
(UTC+0) and destination Tokyo (UTC+9): the difference is 9 hours and the
destination is ahead. -/
theorem c6_time_offset_difference_witness :
    ∃ r : TravelOk,
      getTravelInfo tzdbLondonTokyo "london" "tokyo" =
        TravelOutcome.success r ∧
      r.time_difference_hours = 9 ∧ r.ahead_word = "ahead" := by
  obtain ⟨r, h1, h2, h3⟩ :=
    c6_time_offset_difference tzdbLondonTokyo "london" "tokyo"
      londonCity tokyoCity
      { offsetSeconds := 0, standardS := "", businessS := "", isoS := ""
        relativeS := "", offsetS := "" }
      { offsetSeconds := 32400, standardS := "", businessS := "", isoS := ""
        relativeS := "", offsetS := "" }
      rfl rfl rfl rfl
  have h9 : r.time_difference_hours = 9 := by rw [h2]; norm_num
  exact ⟨r, h1, h9, h3.mpr (by rw [h9]; norm_num)⟩

/-- Claim C8: lookup is case- and whitespace-insensitive (the input is
lower-cased and trimmed before exact comparison against the stored keys), the
three spellings of London return the identical record, and a name whose
normalised form is absent yields an error-status result value rather than an
exception (the embedding is a total function). -/
theorem c8_lookup_normalisation :
    (getCityInfo " London " = getCityInfo "london" ∧
     getCityInfo "LONDON" = getCityInfo "london" ∧
     (getCityInfo "london").city_data = some londonCity ∧
     (getCityInfo "london").status = "success") ∧
    ∀ name : String, dbFind (pyNorm name) = none →
      (getCityInfo name).status = "error" := by
  refine ⟨⟨rfl, rfl, rfl, rfl⟩, ?_⟩
  intro name h
  unfold getCityInfo
  rw [h]

/-- Witness for C8's not-found clause at the concrete name `"Atlantis"`. -/
theorem c8_lookup_normalisation_witness :
    (getCityInfo "Atlantis").status = "error" :=
  c8_lookup_normalisation.2 "Atlantis" (by decide)

/-- Claim C9: in the weather branch of `compare_cities` the guard normalises
with lower-case and trim, so `get_weather " london "` succeeds, but the
subsequent table indexing lowers only — `WEATHER_DATA[" london "]` is absent —
so the call raises an uncaught `KeyError` and no status dictionary is
returned. -/
theorem c9_compare_weather_keyerror :
    (getWeather " london " false).status = "success" ∧
    wdFind (pyLower " london ") = none ∧
    compareCities tzdbMissing " london " "london" "weather" =
      PyOutcome.raised ("KeyError: " ++ pyLower " london ") := by
  exact ⟨rfl, rfl, rfl⟩

/-- Claim C10: `get_current_time` with a `format_type` outside
standard/business/iso/relative does not fail: `formats.get(format_type,
formats["standard"])` silently falls back to the standard presentation, and
for every catalog city (whose timezone the runtime resolves) the result is
the same success dictionary as for `format_type = "standard"`. -/
theorem c10_unknown_format_falls_back (tzdb : String → Option ZoneNow)
    (city format_type : String) (info : CityInfo) (z : ZoneNow)
    (hfmt : format_type ∉
      (["standard", "business", "iso", "relative"] : List String))
    (hcity : dbFind (pyNorm city) = some info)
    (htz : tzdb info.timezone = some z) :
    getCurrentTime tzdb city format_type =
      getCurrentTime tzdb city "standard" ∧
    (getCurrentTime tzdb city format_type).status = "success" := by
  simp only [List.mem_cons, List.not_mem_nil, or_false, not_or] at hfmt
  obtain ⟨h1, h2, h3, h4⟩ := hfmt
  have hlook : formatsLookup z format_type = z.standardS := by
    unfold formatsLookup
    rw [show (format_type == "standard") = false by
          simpa [beq_eq_false_iff_ne] using h1,
        show (format_type == "business") = false by
          simpa [beq_eq_false_iff_ne] using h2,
        show (format_type == "iso") = false by
          simpa [beq_eq_false_iff_ne] using h3,
        show (format_type == "relative") = false by
          simpa [beq_eq_false_iff_ne] using h4]
    rfl
  unfold getCurrentTime
  rw [hcity]
  dsimp only
  rw [htz]
  simp only [hlook]
  exact ⟨rfl, trivial⟩

/-- Half-angle identity: `sin(x/2)² = (1 - cos x)/2`. -/
lemma sin_sq_half_eq (x : ℝ) :
    Real.sin (x / 2) ^ 2 = (1 - Real.cos x) / 2 := by
  have h := Real.cos_two_mul (x / 2)
  rw [show 2 * (x / 2) = x by ring] at h
  have h2 := Real.sin_sq_add_cos_sq (x / 2)
  linarith

/-- Oddness of sin under swapping the difference: the squared half-difference
sine is symmetric in its two endpoints. -/
lemma sin_half_sub_sq_comm (u v : ℝ) :
    Real.sin ((u - v) / 2) ^ 2 = Real.sin ((v - u) / 2) ^ 2 := by
  rw [show (u - v) / 2 = -((v - u) / 2) by ring, Real.sin_neg]
  ring

/-- A catalog latitude (at most 90 degrees in magnitude) lands in
`[-π/2, π/2]` after conversion to radians. -/
lemma rad_mem_Icc (q : ℚ) (h : |q| ≤ 90) :
    rad q ∈ Set.Icc (-(Real.pi / 2)) (Real.pi / 2) := by
  unfold rad
  rw [Set.mem_Icc]
  have hq : |(q : ℝ)| ≤ 90 := by exact_mod_cast h
  rw [abs_le] at hq
  constructor
  · nlinarith [mul_nonneg (by linarith [hq.1] : (0:ℝ) ≤ (q : ℝ) + 90)
      Real.pi_pos.le]
  · nlinarith [mul_nonneg (by linarith [hq.2] : (0:ℝ) ≤ 90 - (q : ℝ))
      Real.pi_pos.le]

/-- The unclamped haversine intermediate is nonnegative whenever both
latitudes are at most 90 degrees in magnitude. -/
lemma havRaw_nonneg (lat1 lon1 lat2 lon2 : ℚ)
    (h1 : |lat1| ≤ 90) (h2 : |lat2| ≤ 90) :
    0 ≤ havRaw lat1 lon1 lat2 lon2 := by
  have hc1 := Real.cos_nonneg_of_mem_Icc (rad_mem_Icc lat1 h1)
  have hc2 := Real.cos_nonneg_of_mem_Icc (rad_mem_Icc lat2 h2)
  unfold havRaw
  have := sq_nonneg (Real.sin ((rad lat2 - rad lat1) / 2))
  have := sq_nonneg (Real.sin ((rad lon2 - rad lon1) / 2))
  nlinarith [mul_nonneg (mul_nonneg hc1 hc2)
    (sq_nonneg (Real.sin ((rad lon2 - rad lon1) / 2)))]

/-- The unclamped haversine intermediate never exceeds 1 in exact real
arithmetic, for latitudes within 90 degrees of the equator. -/
lemma havRaw_le_one (lat1 lon1 lat2 lon2 : ℚ)
    (h1 : |lat1| ≤ 90) (h2 : |lat2| ≤ 90) :
    havRaw lat1 lon1 lat2 lon2 ≤ 1 := by
  have hc1 := Real.cos_nonneg_of_mem_Icc (rad_mem_Icc lat1 h1)
  have hc2 := Real.cos_nonneg_of_mem_Icc (rad_mem_Icc lat2 h2)
  unfold havRaw
  rw [sin_sq_half_eq (rad lat2 - rad lat1),
      sin_sq_half_eq (rad lon2 - rad lon1)]
  have e1 := Real.cos_sub (rad lat2) (rad lat1)
  have e2 := Real.cos_add (rad lat1) (rad lat2)
  have e3 := Real.cos_le_one (rad lat1 + rad lat2)
  have e4 := Real.neg_one_le_cos (rad lon2 - rad lon1)
  nlinarith [mul_nonneg hc1 hc2,
    mul_le_mul_of_nonneg_left
      (by linarith : 1 - Real.cos (rad lon2 - rad lon1) ≤ 2)
      (mul_nonneg hc1 hc2)]

/-- Claim C1: the claim asserts the code clamps `h` to `[0, 1]` before the
square root; the source (agent.py lines 448-449) applies no clamp.  This
theorem records what is true of the unclamped code in exact real arithmetic:
for records with valid latitudes the intermediate already lies in `[0, 1]`,
so the spec's clamp (`clamp01`) is the identity on it and the argument
reaching `asin` stays within the function's domain.  Under IEEE-754 floats
this reasoning fails (the intermediate can exceed 1), which is exactly the
overshoot the spec's mandatory clamp exists to absorb. -/
theorem c1_unclamped_h_in_unit_interval (lat1 lon1 lat2 lon2 : ℚ)
    (h1 : |lat1| ≤ 90) (h2 : |lat2| ≤ 90) :
    0 ≤ havRaw lat1 lon1 lat2 lon2 ∧ havRaw lat1 lon1 lat2 lon2 ≤ 1 ∧
    clamp01 (havRaw lat1 lon1 lat2 lon2) = havRaw lat1 lon1 lat2 lon2 ∧
    Real.sqrt (havRaw lat1 lon1 lat2 lon2) ≤ 1 := by
  have h0 := havRaw_nonneg lat1 lon1 lat2 lon2 h1 h2
  have hle := havRaw_le_one lat1 lon1 lat2 lon2 h1 h2
  refine ⟨h0, hle, ?_, Real.sqrt_le_one.mpr hle⟩
  unfold clamp01
  rw [max_eq_right h0, min_eq_right hle]

/-- Witness for C1's theorem at the London and Paris catalog records. -/
theorem c1_unclamped_h_in_unit_interval_witness :
    0 ≤ havRaw londonCity.latDeg londonCity.lonDeg
          parisCity.latDeg parisCity.lonDeg ∧
    havRaw londonCity.latDeg londonCity.lonDeg
      parisCity.latDeg parisCity.lonDeg ≤ 1 ∧
    clamp01 (havRaw londonCity.latDeg londonCity.lonDeg
      parisCity.latDeg parisCity.lonDeg) =
      havRaw londonCity.latDeg londonCity.lonDeg
        parisCity.latDeg parisCity.lonDeg ∧
    Real.sqrt (havRaw londonCity.latDeg londonCity.lonDeg
      parisCity.latDeg parisCity.lonDeg) ≤ 1 :=
  c1_unclamped_h_in_unit_interval londonCity.latDeg londonCity.lonDeg
    parisCity.latDeg parisCity.lonDeg
    (by norm_num [londonCity, abs_le]) (by norm_num [parisCity, abs_le])

/-- Claim C5: the great-circle distance of `get_travel_info` is symmetric —
exactly equal under swapping origin and destination, hence in particular
within the claimed relative tolerance of `1e-6`. -/
theorem c5_distance_symmetric (a b : CityInfo) :
    travelDistanceKm a b = travelDistanceKm b a ∧
    |travelDistanceKm a b - travelDistanceKm b a| ≤
      1e-6 * |travelDistanceKm a b| := by
  have key : havRaw a.latDeg a.lonDeg b.latDeg b.lonDeg =
      havRaw b.latDeg b.lonDeg a.latDeg a.lonDeg := by
    unfold havRaw
    rw [sin_half_sub_sq_comm (rad b.latDeg) (rad a.latDeg),
        sin_half_sub_sq_comm (rad b.lonDeg) (rad a.lonDeg)]
    ring
  have heq : travelDistanceKm a b = travelDistanceKm b a := by
    unfold travelDistanceKm
    rw [key]
  refine ⟨heq, ?_⟩
  rw [heq, sub_self, abs_zero]
  positivity

/-- Claim C7: the travel result's miles figure equals the kilometres figure
times 0.621371, and both are nonnegative. -/
theorem c7_unit_consistency (a b : CityInfo) :
    travelDistanceMiles a b = travelDistanceKm a b * 0.621371 ∧
    0 ≤ travelDistanceKm a b ∧ 0 ≤ travelDistanceMiles a b := by
  have hkm : 0 ≤ travelDistanceKm a b := by
    unfold travelDistanceKm
    have harc : 0 ≤ Real.arcsin (Real.sqrt
        (havRaw a.latDeg a.lonDeg b.latDeg b.lonDeg)) :=
      Real.arcsin_nonneg.mpr (Real.sqrt_nonneg _)
    nlinarith
  refine ⟨rfl, hkm, ?_⟩
  unfold travelDistanceMiles
  nlinarith

/-- Quantitative Taylor bounds for sin with rational endpoints: for
`0 ≤ a ≤ x ≤ b ≤ 1`,
`a - b³/6 - b⁴·(5/96) ≤ sin x ≤ b - a³/6 + b⁴·(5/96)`. -/
lemma sin_taylor_bounds (x a b : ℝ) (hax : a ≤ x) (hxb : x ≤ b)
    (ha : 0 ≤ a) (hb : b ≤ 1) :
    a - b ^ 3 / 6 - b ^ 4 * (5 / 96) ≤ Real.sin x ∧
    Real.sin x ≤ b - a ^ 3 / 6 + b ^ 4 * (5 / 96) := by
  have hx0 : 0 ≤ x := ha.trans hax
  have habs : |x| ≤ 1 := by rw [abs_of_nonneg hx0]; exact hxb.trans hb
  have hsb := Real.sin_bound habs
  rw [abs_of_nonneg hx0, abs_le] at hsb
  have hx3u : x ^ 3 ≤ b ^ 3 := pow_le_pow_left₀ hx0 hxb 3
  have hx3l : a ^ 3 ≤ x ^ 3 := pow_le_pow_left₀ ha hax 3
  have hx4 : x ^ 4 ≤ b ^ 4 := pow_le_pow_left₀ hx0 hxb 4
  have hx4n : (0:ℝ) ≤ x ^ 4 := by positivity
  exact ⟨by nlinarith [hsb.1], by nlinarith [hsb.2]⟩

/-- Quadruple-angle identity: `cos(4y) = 1 - 8·sin²y + 8·sin⁴y`. -/
lemma cos_four_mul_sin_sq (y : ℝ) :
    Real.cos (4 * y) = 1 - 8 * Real.sin y ^ 2 + 8 * Real.sin y ^ 4 := by
  have h2 : Real.cos (2 * y) = 1 - 2 * Real.sin y ^ 2 := by
    have hc := Real.cos_two_mul y
    have hp := Real.sin_sq_add_cos_sq y
    linarith
  have h4 : Real.cos (4 * y) = 2 * Real.cos (2 * y) ^ 2 - 1 := by
    rw [show (4:ℝ) * y = 2 * (2 * y) by ring]
    exact Real.cos_two_mul (2 * y)
  rw [h4, h2]
  ring

/-- The quartic `1 - 8s² + 8s⁴` is monotone decreasing for `s ∈ [0, 0.7]`,
so endpoint bounds on `s` transfer contravariantly. -/
lemma cos_quartic_bounds (s sl su : ℝ) (h1 : sl ≤ s) (h2 : s ≤ su)
    (h0 : 0 ≤ sl) (hu : su ≤ 7 / 10) :
    1 - 8 * su ^ 2 + 8 * su ^ 4 ≤ 1 - 8 * s ^ 2 + 8 * s ^ 4 ∧
    1 - 8 * s ^ 2 + 8 * s ^ 4 ≤ 1 - 8 * sl ^ 2 + 8 * sl ^ 4 := by
  have hs0 : 0 ≤ s := h0.trans h1
  have hsu0 : 0 ≤ su := hs0.trans h2
  have hq1 : s ^ 2 ≤ su ^ 2 := pow_le_pow_left₀ hs0 h2 2
  have hq2 : sl ^ 2 ≤ s ^ 2 := pow_le_pow_left₀ h0 h1 2
  have hcap : su ^ 2 ≤ 49 / 100 := by nlinarith
  have hsum1 : su ^ 2 + s ^ 2 ≤ 1 := by nlinarith
  have hsum2 : s ^ 2 + sl ^ 2 ≤ 1 := by nlinarith
  constructor
  · nlinarith [mul_nonneg (sub_nonneg.mpr hq1) (sub_nonneg.mpr hsum1)]
  · nlinarith [mul_nonneg (sub_nonneg.mpr hq2) (sub_nonneg.mpr hsum2)]

set_option maxHeartbeats 1000000 in
/-- Certified rational bounds for the haversine intermediate of the
London-Paris pair, obtained by interval arithmetic over the Taylor bounds
with `π ∈ (3.141592, 3.141593)`. -/
lemma hav_london_paris_bounds :
    (0.000726577 : ℝ) ≤
        havRaw londonCity.latDeg londonCity.lonDeg
          parisCity.latDeg parisCity.lonDeg ∧
      havRaw londonCity.latDeg londonCity.lonDeg
          parisCity.latDeg parisCity.lonDeg ≤ 0.000727039 := by
  have hpiL := Real.pi_gt_d6
  have hpiU := Real.pi_lt_d6
  have hexpr : havRaw londonCity.latDeg londonCity.lonDeg
      parisCity.latDeg parisCity.lonDeg =
      Real.sin ((2.6508 / 360) * Real.pi) ^ 2 +
        Real.cos (4 * ((51.5074 / 720) * Real.pi)) *
          Real.cos (4 * ((48.8566 / 720) * Real.pi)) *
          Real.sin ((2.48 / 360) * Real.pi) ^ 2 := by
    show havRaw 51.5074 (-0.1278) 48.8566 2.3522 = _
    unfold havRaw rad
    rw [show ((48.8566 : ℚ) : ℝ) = (48.8566 : ℝ) by norm_num,
        show ((51.5074 : ℚ) : ℝ) = (51.5074 : ℝ) by norm_num,
        show ((2.3522 : ℚ) : ℝ) = (2.3522 : ℝ) by norm_num,
        show (((-0.1278 : ℚ)) : ℝ) = (-0.1278 : ℝ) by norm_num]
    rw [show ((48.8566 : ℝ) * Real.pi / 180 - 51.5074 * Real.pi / 180) / 2 =
          -((2.6508 / 360) * Real.pi) by ring,
        Real.sin_neg,
        show (51.5074 : ℝ) * Real.pi / 180 =
          4 * ((51.5074 / 720) * Real.pi) by ring,
        show (48.8566 : ℝ) * Real.pi / 180 =
          4 * ((48.8566 / 720) * Real.pi) by ring,
        show ((2.3522 : ℝ) * Real.pi / 180 - -0.1278 * Real.pi / 180) / 2 =
          (2.48 / 360) * Real.pi by ring]
    ring
  rw [hexpr]
  have hA1 : (0.023132589 : ℝ) ≤ (2.6508 / 360) * Real.pi ∧
      (2.6508 / 360) * Real.pi ≤ 0.023132597 :=
    ⟨by linarith, by linarith⟩
  have hs1 := sin_taylor_bounds ((2.6508 / 360) * Real.pi)
    0.023132589 0.023132597 hA1.1 hA1.2 (by norm_num) (by norm_num)
  have hs1' : (0.023130510 : ℝ) ≤ Real.sin ((2.6508 / 360) * Real.pi) ∧
      Real.sin ((2.6508 / 360) * Real.pi) ≤ 0.023130549 :=
    ⟨le_trans (by norm_num) hs1.1, le_trans hs1.2 (by norm_num)⟩
  have ht1 : (0.000535020 : ℝ) ≤ Real.sin ((2.6508 / 360) * Real.pi) ^ 2 ∧
      Real.sin ((2.6508 / 360) * Real.pi) ^ 2 ≤ 0.000535023 := by
    constructor
    · exact le_trans (by norm_num)
        (pow_le_pow_left₀ (by norm_num) hs1'.1 2)
    · exact le_trans
        (pow_le_pow_left₀ (le_trans (by norm_num) hs1'.1) hs1'.2 2)
        (by norm_num)
  have hA2 : (0.021642078 : ℝ) ≤ (2.48 / 360) * Real.pi ∧
      (2.48 / 360) * Real.pi ≤ 0.021642086 :=
    ⟨by linarith, by linarith⟩
  have hs2 := sin_taylor_bounds ((2.48 / 360) * Real.pi)
    0.021642078 0.021642086 hA2.1 hA2.2 (by norm_num) (by norm_num)
  have hs2' : (0.021640377 : ℝ) ≤ Real.sin ((2.48 / 360) * Real.pi) ∧
      Real.sin ((2.48 / 360) * Real.pi) ≤ 0.021640408 :=
    ⟨le_trans (by norm_num) hs2.1, le_trans hs2.2 (by norm_num)⟩
  have ht2 : (0.000468305 : ℝ) ≤ Real.sin ((2.48 / 360) * Real.pi) ^ 2 ∧
      Real.sin ((2.48 / 360) * Real.pi) ^ 2 ≤ 0.000468308 := by
    constructor
    · exact le_trans (by norm_num)
        (pow_le_pow_left₀ (by norm_num) hs2'.1 2)
    · exact le_trans
        (pow_le_pow_left₀ (le_trans (by norm_num) hs2'.1) hs2'.2 2)
        (by norm_num)
  have hy1 : (0.224743383 : ℝ) ≤ (51.5074 / 720) * Real.pi ∧
      (51.5074 / 720) * Real.pi ≤ 0.224743455 :=
    ⟨by linarith, by linarith⟩
  have hsy1 := sin_taylor_bounds ((51.5074 / 720) * Real.pi)
    0.224743383 0.224743455 hy1.1 hy1.2 (by norm_num) (by norm_num)
  have hsy1' : (0.222718555 : ℝ) ≤ Real.sin ((51.5074 / 720) * Real.pi) ∧
      Real.sin ((51.5074 / 720) * Real.pi) ≤ 0.222984382 :=
    ⟨le_trans (by norm_num) hsy1.1, le_trans hsy1.2 (by norm_num)⟩
  have hcq1 := cos_quartic_bounds (Real.sin ((51.5074 / 720) * Real.pi))
    0.222718555 0.222984382 hsy1'.1 hsy1'.2 (by norm_num) (by norm_num)
  have hc1 : (0.622001968 : ℝ) ≤
      Real.cos (4 * ((51.5074 / 720) * Real.pi)) ∧
      Real.cos (4 * ((51.5074 / 720) * Real.pi)) ≤ 0.622855664 := by
    rw [cos_four_mul_sin_sq]
    exact ⟨le_trans (by norm_num) hcq1.1, le_trans hcq1.2 (by norm_num)⟩
  have hy2 : (0.213177088 : ℝ) ≤ (48.8566 / 720) * Real.pi ∧
      (48.8566 / 720) * Real.pi ≤ 0.213177157 :=
    ⟨by linarith, by linarith⟩
  have hsy2 := sin_taylor_bounds ((48.8566 / 720) * Real.pi)
    0.213177088 0.213177157 hy2.1 hy2.2 (by norm_num) (by norm_num)
  have hsy2' : (0.211454903 : ℝ) ≤ Real.sin ((48.8566 / 720) * Real.pi) ∧
      Real.sin ((48.8566 / 720) * Real.pi) ≤ 0.211670100 :=
    ⟨le_trans (by norm_num) hsy2.1, le_trans hsy2.2 (by norm_num)⟩
  have hcq2 := cos_quartic_bounds (Real.sin ((48.8566 / 720) * Real.pi))
    0.211454903 0.211670100 hsy2'.1 hsy2'.2 (by norm_num) (by norm_num)
  have hc2 : (0.657625503 : ℝ) ≤
      Real.cos (4 * ((48.8566 / 720) * Real.pi)) ∧
      Real.cos (4 * ((48.8566 / 720) * Real.pi)) ≤ 0.658288737 := by
    rw [cos_four_mul_sin_sq]
    exact ⟨le_trans (by norm_num) hcq2.1, le_trans hcq2.2 (by norm_num)⟩
  have hc1n : (0 : ℝ) ≤ Real.cos (4 * ((51.5074 / 720) * Real.pi)) :=
    le_trans (by norm_num) hc1.1
  have hc2n : (0 : ℝ) ≤ Real.cos (4 * ((48.8566 / 720) * Real.pi)) :=
    le_trans (by norm_num) hc2.1
  constructor
  · have hprod : (0.622001968 * 0.657625503 : ℝ) ≤
        Real.cos (4 * ((51.5074 / 720) * Real.pi)) *
          Real.cos (4 * ((48.8566 / 720) * Real.pi)) :=
      mul_le_mul hc1.1 hc2.1 (by norm_num) hc1n
    have hprod2 : (0.622001968 * 0.657625503 * 0.000468305 : ℝ) ≤
        Real.cos (4 * ((51.5074 / 720) * Real.pi)) *
          Real.cos (4 * ((48.8566 / 720) * Real.pi)) *
          Real.sin ((2.48 / 360) * Real.pi) ^ 2 :=
      mul_le_mul hprod ht2.1 (by norm_num) (mul_nonneg hc1n hc2n)
    have hconst : (0.000726577:ℝ) ≤
        0.000535020 + 0.622001968 * 0.657625503 * 0.000468305 := by norm_num
    linarith [ht1.1, hprod2, hconst]
  · have hprod : Real.cos (4 * ((51.5074 / 720) * Real.pi)) *
        Real.cos (4 * ((48.8566 / 720) * Real.pi)) ≤
        (0.622855664 * 0.658288737 : ℝ) :=
      mul_le_mul hc1.2 hc2.2 hc2n (by norm_num)
    have hprod2 : Real.cos (4 * ((51.5074 / 720) * Real.pi)) *
        Real.cos (4 * ((48.8566 / 720) * Real.pi)) *
        Real.sin ((2.48 / 360) * Real.pi) ^ 2 ≤
        (0.622855664 * 0.658288737 * 0.000468308 : ℝ) :=
      mul_le_mul hprod ht2.2 (sq_nonneg _) (by norm_num)
    have hconst : (0.000535023 : ℝ) +
        0.622855664 * 0.658288737 * 0.000468308 ≤ 0.000727039 := by norm_num
    linarith [ht1.2, hprod2, hconst]

/-- Claim C4: `get_travel_info` computes the haversine great-circle distance
with Earth radius 6371 km exactly as the spec's formula describes, and on
the catalog's London and Paris records the resulting distance lies between
343 and 344 kilometres. -/
theorem c4_haversine_known_value :
    (∀ a b : CityInfo, travelDistanceKm a b = specGreatCircleKm a b) ∧
    (343 : ℝ) ≤ travelDistanceKm londonCity parisCity ∧
    travelDistanceKm londonCity parisCity ≤ 344 := by
  have hb := hav_london_paris_bounds
  have h0 : (0:ℝ) ≤ havRaw londonCity.latDeg londonCity.lonDeg
      parisCity.latDeg parisCity.lonDeg := le_trans (by norm_num) hb.1
  refine ⟨fun a b => rfl, ?_, ?_⟩
  · have hsinA := sin_taylor_bounds ((343:ℝ)/12742) (343/12742) (343/12742)
      le_rfl le_rfl (by norm_num) (by norm_num)
    have hstep : ((343:ℝ)/12742 - (343/12742)^3/6 + (343/12742)^4*(5/96)) ≤
        Real.sqrt (havRaw londonCity.latDeg londonCity.lonDeg
          parisCity.latDeg parisCity.lonDeg) :=
      (Real.le_sqrt (by norm_num) h0).mpr
        (le_trans (by norm_num) hb.1)
    have hmono := Real.monotone_arcsin (le_trans hsinA.2 hstep)
    rw [Real.arcsin_sin (by linarith [Real.pi_pos])
      (by linarith [Real.pi_gt_d6])] at hmono
    unfold travelDistanceKm
    linarith [hmono]
  · have hsinB := sin_taylor_bounds ((344:ℝ)/12742) (344/12742) (344/12742)
      le_rfl le_rfl (by norm_num) (by norm_num)
    have hstep : Real.sqrt (havRaw londonCity.latDeg londonCity.lonDeg
        parisCity.latDeg parisCity.lonDeg) ≤
        ((344:ℝ)/12742 - (344/12742)^3/6 - (344/12742)^4*(5/96)) := by
      calc Real.sqrt (havRaw londonCity.latDeg londonCity.lonDeg
            parisCity.latDeg parisCity.lonDeg) ≤
          Real.sqrt (((344:ℝ)/12742 - (344/12742)^3/6 -
            (344/12742)^4*(5/96))^2) :=
            Real.sqrt_le_sqrt (le_trans hb.2 (by norm_num))
        _ = (344:ℝ)/12742 - (344/12742)^3/6 - (344/12742)^4*(5/96) :=
            Real.sqrt_sq (by norm_num)
    have hmono := Real.monotone_arcsin (le_trans hstep hsinB.1)
    rw [Real.arcsin_sin (by linarith [Real.pi_pos])
      (by linarith [Real.pi_gt_d6])] at hmono
    unfold travelDistanceKm
    linarith [hmono]

/-- Witness for C10 at the concrete format `"fancy"` and city London with
the `tzdbLondonTokyo` database. -/
theorem c10_unknown_format_falls_back_witness :
    getCurrentTime tzdbLondonTokyo "london" "fancy" =
      getCurrentTime tzdbLondonTokyo "london" "standard" ∧
    (getCurrentTime tzdbLondonTokyo "london" "fancy").status = "success" :=
  c10_unknown_format_falls_back tzdbLondonTokyo "london" "fancy" londonCity
    { offsetSeconds := 0, standardS := "", businessS := "", isoS := ""
      relativeS := "", offsetS := "" }
    (by decide) rfl rfl

end CityAgent
